import Mathlib

/-
Verification of the ValueStore core of the note-board clipboard server
(src/main.go) against its design document.

The store is a map from identifier to `storedValue` (a string plus the
time it was recorded) together with a single TTL shared by all entries.
Time is modelled in abstract units as a natural number and is passed
explicitly to each operation (Go reads `time.Now()` inside the calls);
`time.Since(t)` at time `now` is `now - t`, and with natural-number
truncated subtraction a timestamp in the future yields age 0, which
matches Go's behaviour of a negative duration never exceeding a
non-negative TTL.  The Go map is modelled as a function from identifiers
to `Option storedValue`; the mutex only serialises access and plays no
role in the sequential semantics, but the split of `Get` into the read
taken under `RLock` and the delete-and-return taken afterwards is kept
explicit (`getSnapshot` / `getFinish`) so that interleavings with a
concurrent `Set` can be stated.
-/

/-- An entry of the store: the stored string and the time it was recorded
(struct `storedValue`, main.go lines 11-14). -/
structure storedValue where
  value : String
  timestamp : Nat
deriving DecidableEq, Repr

/-- The store: the entry mapping and the configured TTL (struct
`ValueStore`, main.go lines 16-20).  The `sync.RWMutex` is not part of
the sequential state. -/
structure ValueStore where
  values : String → Option storedValue
  ttl : Nat

/-- Go's builtin `delete(vs.values, id)` as used in main.go lines 49 and
67: removes the key if present, a no-op otherwise. -/
def ValueStore.deleteValue (vs : ValueStore) (id : String) : ValueStore :=
  { vs with values := fun k => if k = id then none else vs.values k }

/-- `NewValueStore` (main.go lines 22-31): an empty mapping with the given
TTL.  The background cleanup goroutine it spawns is modelled separately as
`cleanupTick`. -/
def NewValueStore (ttl : Nat) : ValueStore :=
  { values := fun _ => none, ttl := ttl }

/-- `Set` (main.go lines 33-40): insert or overwrite the entry for `id`
with the given value, recorded at the current time. -/
def ValueStore.Set (vs : ValueStore) (id value : String) (now : Nat) : ValueStore :=
  { vs with values := fun k =>
      if k = id then some { value := value, timestamp := now } else vs.values k }

/-- The read step of `Get` (main.go lines 43-45): the snapshot of the
entry for `id` taken under the read lock. -/
def ValueStore.getSnapshot (vs : ValueStore) (id : String) : Option storedValue :=
  vs.values id

/-- The remainder of `Get` after the snapshot (main.go lines 47-54): if
the snapshot was missing or its age exceeds the TTL, delete the key
(unconditionally, under the write lock) and return the empty string;
otherwise return the snapshot's value and leave the store untouched. -/
def ValueStore.getFinish (vs : ValueStore) (id : String) (now : Nat)
    (snap : Option storedValue) : String × ValueStore :=
  match snap with
  | none => ("", vs.deleteValue id)
  | some val =>
    if now - val.timestamp > vs.ttl then ("", vs.deleteValue id)
    else (val.value, vs)

/-- `Get` (main.go lines 42-55) with nothing interleaved between the read
and the delete: snapshot and finish are applied to the same state. -/
def ValueStore.Get (vs : ValueStore) (id : String) (now : Nat) : String × ValueStore :=
  vs.getFinish id now (vs.getSnapshot id)

/-- One tick of the background cleanup routine (main.go lines 61-71):
remove every entry whose age exceeds the TTL.  The Go range-and-delete
loop over the map's distinct keys is expressed pointwise. -/
def ValueStore.cleanupTick (vs : ValueStore) (now : Nat) : ValueStore :=
  { vs with values := fun id =>
      match vs.values id with
      | some val => if now - val.timestamp > vs.ttl then none else some val
      | none => none }

/-- The HTTP layer's found signal (main.go line 88, `if val == ""`): a
`Get` result counts as found exactly when the returned string is
nonempty.  The store itself returns only a string, so this emptiness test
is the only presence signal in the program. -/
def facadeFound (s : String) : Bool := !(s == "")

/-! ## C1: Set followed by Get returns the value, reported as present -/

/-- C1 as stated is false at the empty-string value: after
`Set "a" ""`, `Get "a"` at the same instant returns the stored string
`""`, but the program's presence signal reports it as NOT found — the
code has no separate found flag, and the facade maps the empty string to
"Clipboard not found". -/
theorem C1_counterexample :
    (((NewValueStore 10).Set "a" "" 0).Get "a" 0).1 = "" ∧
    facadeFound (((NewValueStore 10).Set "a" "" 0).Get "a" 0).1 = false := by
  constructor
  · rfl
  · rfl

/-- C1 (amended): for every value other than the empty string, `Set`
followed immediately by `Get` returns that value and the facade reports
it as found; an empty-string value is still returned as the stored string
but is indistinguishable from absent. -/
theorem C1_set_then_get (vs : ValueStore) (id v : String) (now : Nat) (h : v ≠ "") :
    ((vs.Set id v now).Get id now).1 = v ∧
    facadeFound ((vs.Set id v now).Get id now).1 = true := by
  have hget : ((vs.Set id v now).Get id now).1 = v := by
    simp [ValueStore.Get, ValueStore.Set, ValueStore.getSnapshot, ValueStore.getFinish]
  refine ⟨hget, ?_⟩
  rw [hget]
  simp [facadeFound, h]

/-- C1 amended-claim witness at a concrete input. -/
theorem C1_set_then_get_witness :
    ("x" ≠ "") ∧
    ((((NewValueStore 5).Set "a" "x" 3).Get "a" 3).1 = "x" ∧
     facadeFound ((((NewValueStore 5).Set "a" "x" 3).Get "a" 3).1) = true) :=
  ⟨by decide, C1_set_then_get (NewValueStore 5) "a" "x" 3 (by decide)⟩

/-! ## C2: TTL boundary -/

/-- C2: an entry set at time `t` is returned by `Get` at any `now` with
age `now - t ≤ TTL` (including age exactly TTL, since the live condition
in main.go line 47 is `age > ttl` for expiry); at any `now` with age
strictly greater than TTL, `Get` returns absent (empty string, facade
found = false) and removes the entry. -/
theorem C2_ttl_boundary (vs : ValueStore) (id v : String) (t now : Nat) :
    (now - t ≤ vs.ttl → ((vs.Set id v t).Get id now).1 = v) ∧
    (now - t > vs.ttl →
      ((vs.Set id v t).Get id now).1 = "" ∧
      ((vs.Set id v t).Get id now).2.values id = none ∧
      facadeFound ((vs.Set id v t).Get id now).1 = false) := by
  constructor
  · intro h
    have hn : ¬ (now - t > vs.ttl) := not_lt.mpr h
    simp [ValueStore.Get, ValueStore.Set, ValueStore.getSnapshot, ValueStore.getFinish, hn]
  · intro h
    simp [ValueStore.Get, ValueStore.Set, ValueStore.getSnapshot, ValueStore.getFinish,
      ValueStore.deleteValue, h, facadeFound]

/-- C2 witness: TTL 10, set at time 0, live at age 10, expired at age 11. -/
theorem C2_ttl_boundary_witness :
    ((10 - 0 ≤ (NewValueStore 10).ttl → (((NewValueStore 10).Set "a" "v" 0).Get "a" 10).1 = "v") ∧
     (10 - 0 > (NewValueStore 10).ttl →
       (((NewValueStore 10).Set "a" "v" 0).Get "a" 10).1 = "" ∧
       (((NewValueStore 10).Set "a" "v" 0).Get "a" 10).2.values "a" = none ∧
       facadeFound ((((NewValueStore 10).Set "a" "v" 0).Get "a" 10).1) = false)) ∧
    ((11 - 0 ≤ (NewValueStore 10).ttl → (((NewValueStore 10).Set "a" "v" 0).Get "a" 11).1 = "v") ∧
     (11 - 0 > (NewValueStore 10).ttl →
       (((NewValueStore 10).Set "a" "v" 0).Get "a" 11).1 = "" ∧
       (((NewValueStore 10).Set "a" "v" 0).Get "a" 11).2.values "a" = none ∧
       facadeFound ((((NewValueStore 10).Set "a" "v" 0).Get "a" 11).1) = false)) :=
  ⟨C2_ttl_boundary (NewValueStore 10) "a" "v" 0 10,
   C2_ttl_boundary (NewValueStore 10) "a" "v" 0 11⟩

/-! ## C8: Get on a never-written identifier -/

/-- C8: if the mapping holds no entry for `id`, `Get id` returns absent
(empty string; the facade reports not found). -/
theorem C8_get_absent (vs : ValueStore) (id : String) (now : Nat)
    (h : vs.values id = none) :
    (vs.Get id now).1 = "" ∧ facadeFound (vs.Get id now).1 = false := by
  simp [ValueStore.Get, ValueStore.getSnapshot, ValueStore.getFinish, h, facadeFound]

/-- C8 witness: the fresh store holds nothing. -/
theorem C8_get_absent_witness :
    (NewValueStore 7).values "nope" = none ∧
    (((NewValueStore 7).Get "nope" 3).1 = "" ∧
     facadeFound (((NewValueStore 7).Get "nope" 3).1) = false) :=
  ⟨rfl, C8_get_absent (NewValueStore 7) "nope" 3 rfl⟩

/-! ## C3: no expired entry is ever observable through Get -/

/-- C3: at every state and observation time, (a) an entry whose age
exceeds the TTL is never returned — that `Get` answers absent and removes
the entry at the moment of the read; (b) every `Get` either returns a
live entry's value leaving the store untouched, or answers absent with no
entry left for the identifier; (c) a cleanup tick leaves only live
entries. -/
theorem C3_expiry_invariant (vs : ValueStore) (id : String) (now : Nat) :
    (∀ e, vs.values id = some e → now - e.timestamp > vs.ttl →
      (vs.Get id now).1 = "" ∧ (vs.Get id now).2.values id = none) ∧
    ((∃ e, vs.values id = some e ∧ now - e.timestamp ≤ vs.ttl ∧
        (vs.Get id now).1 = e.value ∧ (vs.Get id now).2 = vs) ∨
      ((vs.Get id now).1 = "" ∧ (vs.Get id now).2.values id = none)) ∧
    (∀ e, (vs.cleanupTick now).values id = some e → now - e.timestamp ≤ vs.ttl) := by
  refine ⟨?_, ?_, ?_⟩
  · intro e he hexp
    simp [ValueStore.Get, ValueStore.getSnapshot, ValueStore.getFinish,
      ValueStore.deleteValue, he, hexp]
  · cases he : vs.values id with
    | none =>
      right
      simp [ValueStore.Get, ValueStore.getSnapshot, ValueStore.getFinish,
        ValueStore.deleteValue, he]
    | some e =>
      by_cases hexp : now - e.timestamp > vs.ttl
      · right
        simp [ValueStore.Get, ValueStore.getSnapshot, ValueStore.getFinish,
          ValueStore.deleteValue, he, hexp]
      · left
        exact ⟨e, rfl, not_lt.mp hexp, by
          simp [ValueStore.Get, ValueStore.getSnapshot, ValueStore.getFinish, he, hexp], by
          simp [ValueStore.Get, ValueStore.getSnapshot, ValueStore.getFinish, he, hexp]⟩
  · intro e he
    simp only [ValueStore.cleanupTick] at he
    cases hv : vs.values id with
    | none => rw [hv] at he; simp at he
    | some e0 =>
      rw [hv] at he
      by_cases hexp : now - e0.timestamp > vs.ttl
      · simp [hexp] at he
      · simp [hexp] at he
        rw [← he]
        exact not_lt.mp hexp

/-- C3 witness at a concrete state: one expired entry, one live entry. -/
theorem C3_expiry_invariant_witness :
    let s := ((NewValueStore 5).Set "old" "u" 0).Set "new" "w" 8
    (∀ e, s.values "old" = some e → 10 - e.timestamp > s.ttl →
      (s.Get "old" 10).1 = "" ∧ (s.Get "old" 10).2.values "old" = none) ∧
    ((∃ e, s.values "old" = some e ∧ 10 - e.timestamp ≤ s.ttl ∧
        (s.Get "old" 10).1 = e.value ∧ (s.Get "old" 10).2 = s) ∨
      ((s.Get "old" 10).1 = "" ∧ (s.Get "old" 10).2.values "old" = none)) ∧
    (∀ e, (s.cleanupTick 10).values "old" = some e → 10 - e.timestamp ≤ s.ttl) :=
  C3_expiry_invariant (((NewValueStore 5).Set "old" "u" 0).Set "new" "w" 8) "old" 10

/-! ## C4: lazy deletion of an expired entry -/

/-- C4: if the entry for `id` is present with age strictly greater than
the TTL, `Get id` returns absent and, in the same call, removes the entry
from the mapping. -/
theorem C4_lazy_deletion (vs : ValueStore) (id : String) (now : Nat)
    (e : storedValue) (he : vs.values id = some e)
    (hexp : now - e.timestamp > vs.ttl) :
    (vs.Get id now).1 = "" ∧ (vs.Get id now).2.values id = none := by
  simp [ValueStore.Get, ValueStore.getSnapshot, ValueStore.getFinish,
    ValueStore.deleteValue, he, hexp]

/-- C4 witness: TTL 5, entry recorded at 0, read at 6. -/
theorem C4_lazy_deletion_witness :
    ((NewValueStore 5).Set "a" "v" 0).values "a" = some { value := "v", timestamp := 0 } ∧
    6 - (0 : Nat) > ((NewValueStore 5).Set "a" "v" 0).ttl ∧
    ((((NewValueStore 5).Set "a" "v" 0).Get "a" 6).1 = "" ∧
     (((NewValueStore 5).Set "a" "v" 0).Get "a" 6).2.values "a" = none) :=
  ⟨rfl, by decide,
   C4_lazy_deletion ((NewValueStore 5).Set "a" "v" 0) "a" 6
     { value := "v", timestamp := 0 } rfl (by decide)⟩

/-! ## C5: the lazy-delete race with a concurrent Set -/

/-- C5 as stated is false of the code: the delete at main.go line 49 is
unconditional, so when a `Set` lands between `Get`'s snapshot (taken
under the read lock, released at line 45) and its delete (taken under the
write lock at line 48), the freshly written entry is erased.  Concretely:
TTL 5, entry `"old"` recorded at time 0, `Get "a"` at time 10 snapshots
it as expired; a concurrent `Set "a" "fresh"` at time 10 writes a live
entry; `Get`'s finish step then deletes it. -/
theorem C5_counterexample :
    let s0 := (NewValueStore 5).Set "a" "old" 0
    let snap := s0.getSnapshot "a"
    let s1 := s0.Set "a" "fresh" 10
    s1.values "a" = some { value := "fresh", timestamp := 10 } ∧
    10 - (10 : Nat) ≤ s1.ttl ∧
    (s1.getFinish "a" 10 snap).2.values "a" = none := by
  refine ⟨rfl, by decide, ?_⟩
  rfl

/-- C5 (amended): the deletion is not conditional on the snapshot —
whenever `Get`'s snapshot of `id` is expired (or absent), the finish step
deletes whatever entry is then present, so a newer entry written by a
`Set` interleaved between the stale read and the delete is erased (the
race the design notes describe for a naive unconditional delete). -/
theorem C5_unconditional_delete (s0 : ValueStore) (id v : String)
    (now tset : Nat) (e : storedValue)
    (hsnap : s0.getSnapshot id = some e)
    (hexp : now - e.timestamp > s0.ttl) :
    ((s0.Set id v tset).getFinish id now (s0.getSnapshot id)).2.values id = none := by
  rw [hsnap]
  simp [ValueStore.getFinish, ValueStore.Set, ValueStore.deleteValue, hexp]

/-- C5 amended-claim witness at the concrete race above. -/
theorem C5_unconditional_delete_witness :
    ((NewValueStore 5).Set "a" "old" 0).getSnapshot "a" =
      some { value := "old", timestamp := 0 } ∧
    10 - (0 : Nat) > ((NewValueStore 5).Set "a" "old" 0).ttl ∧
    ((((NewValueStore 5).Set "a" "old" 0).Set "a" "fresh" 10).getFinish "a" 10
       (((NewValueStore 5).Set "a" "old" 0).getSnapshot "a")).2.values "a" = none :=
  ⟨rfl, by decide,
   C5_unconditional_delete ((NewValueStore 5).Set "a" "old" 0) "a" "fresh" 10 10
     { value := "old", timestamp := 0 } rfl (by decide)⟩

/-! ## C6: one cleanup tick removes exactly the expired entries -/

/-- C6: a cleanup tick removes every entry whose age exceeds the TTL,
keeps every live entry with its value and timestamp unchanged, leaves
absent identifiers absent and the TTL unchanged, and has no effect on the
result of any later `Get` (at any time at or after the tick). -/
theorem C6_cleanup_exact (vs : ValueStore) (now : Nat) :
    (∀ id e, vs.values id = some e → now - e.timestamp > vs.ttl →
      (vs.cleanupTick now).values id = none) ∧
    (∀ id e, vs.values id = some e → now - e.timestamp ≤ vs.ttl →
      (vs.cleanupTick now).values id = some e) ∧
    (∀ id, vs.values id = none → (vs.cleanupTick now).values id = none) ∧
    (vs.cleanupTick now).ttl = vs.ttl ∧
    (∀ id now2, now ≤ now2 →
      ((vs.cleanupTick now).Get id now2).1 = (vs.Get id now2).1) := by
  refine ⟨?_, ?_, ?_, rfl, ?_⟩
  · intro id e he hexp
    simp [ValueStore.cleanupTick, he, hexp]
  · intro id e he hlive
    simp [ValueStore.cleanupTick, he, not_lt.mpr hlive]
  · intro id h
    simp [ValueStore.cleanupTick, h]
  · intro id now2 h12
    cases hv : vs.values id with
    | none =>
      simp [ValueStore.Get, ValueStore.getSnapshot, ValueStore.getFinish,
        ValueStore.cleanupTick, hv]
    | some e =>
      by_cases hexp : now - e.timestamp > vs.ttl
      · have hexp2 : now2 - e.timestamp > vs.ttl :=
          lt_of_lt_of_le hexp (Nat.sub_le_sub_right h12 e.timestamp)
        simp [ValueStore.Get, ValueStore.getSnapshot, ValueStore.getFinish,
          ValueStore.cleanupTick, hv, hexp, hexp2]
      · by_cases hexp2 : now2 - e.timestamp > vs.ttl <;>
          simp [ValueStore.Get, ValueStore.getSnapshot, ValueStore.getFinish,
            ValueStore.cleanupTick, hv, hexp, hexp2]

/-- C6 witness at a concrete state: one expired and one live entry at the
tick taken at time 10. -/
theorem C6_cleanup_exact_witness :
    let s := ((NewValueStore 5).Set "old" "u" 0).Set "new" "w" 8
    (∀ id e, s.values id = some e → 10 - e.timestamp > s.ttl →
      (s.cleanupTick 10).values id = none) ∧
    (∀ id e, s.values id = some e → 10 - e.timestamp ≤ s.ttl →
      (s.cleanupTick 10).values id = some e) ∧
    (∀ id, s.values id = none → (s.cleanupTick 10).values id = none) ∧
    (s.cleanupTick 10).ttl = s.ttl ∧
    (∀ id now2, 10 ≤ now2 →
      ((s.cleanupTick 10).Get id now2).1 = (s.Get id now2).1) :=
  C6_cleanup_exact (((NewValueStore 5).Set "old" "u" 0).Set "new" "w" 8) 10

/-! ## C7: overwrite replaces the entry and resets its age -/

/-- C7: a second `Set` on the same identifier fully replaces the earlier
entry (last write wins) and resets the recording time, so a `Get` whose
age measured from the second `Set` is within the TTL returns the second
value, however old the first `Set` was. -/
theorem C7_overwrite (vs : ValueStore) (id v1 v2 : String) (t1 t2 now : Nat)
    (h : now - t2 ≤ vs.ttl) :
    ((vs.Set id v1 t1).Set id v2 t2).values id =
      some { value := v2, timestamp := t2 } ∧
    (((vs.Set id v1 t1).Set id v2 t2).Get id now).1 = v2 := by
  constructor
  · simp [ValueStore.Set]
  · simp [ValueStore.Get, ValueStore.Set, ValueStore.getSnapshot, ValueStore.getFinish,
      not_lt.mpr h]

/-- C7 witness: TTL 5, first Set at time 0, second at time 100, read at
time 105 — live relative to the second Set although the first is 105
units old. -/
theorem C7_overwrite_witness :
    105 - 100 ≤ (NewValueStore 5).ttl ∧
    ((((NewValueStore 5).Set "a" "v1" 0).Set "a" "v2" 100).values "a" =
       some { value := "v2", timestamp := 100 } ∧
     (((((NewValueStore 5).Set "a" "v1" 0).Set "a" "v2" 100).Get "a" 105).1 = "v2")) :=
  ⟨by decide, C7_overwrite (NewValueStore 5) "a" "v1" "v2" 0 100 105 (by decide)⟩

/-! ## C9: a live read leaves the store unchanged -/

/-- C9: when the entry for `id` is present and live, `Get id` returns its
value and the resulting store state is equal to the starting state — the
entry keeps its value and timestamp (no TTL refresh) and no other entry
is touched. -/
theorem C9_live_read_frame (vs : ValueStore) (id : String) (now : Nat)
    (e : storedValue) (he : vs.values id = some e)
    (hlive : now - e.timestamp ≤ vs.ttl) :
    (vs.Get id now).1 = e.value ∧ (vs.Get id now).2 = vs := by
  constructor <;>
    simp [ValueStore.Get, ValueStore.getSnapshot, ValueStore.getFinish, he,
      not_lt.mpr hlive]

/-- C9 witness: a two-entry store, live read of one of them. -/
theorem C9_live_read_frame_witness :
    (((NewValueStore 5).Set "b" "w" 1).Set "a" "v" 2).values "a" =
      some { value := "v", timestamp := 2 } ∧
    4 - 2 ≤ (((NewValueStore 5).Set "b" "w" 1).Set "a" "v" 2).ttl ∧
    (((((NewValueStore 5).Set "b" "w" 1).Set "a" "v" 2).Get "a" 4).1 = "v" ∧
     ((((NewValueStore 5).Set "b" "w" 1).Set "a" "v" 2).Get "a" 4).2 =
       ((NewValueStore 5).Set "b" "w" 1).Set "a" "v" 2) :=
  ⟨rfl, by decide,
   C9_live_read_frame (((NewValueStore 5).Set "b" "w" 1).Set "a" "v" 2) "a" 4
     { value := "v", timestamp := 2 } rfl (by decide)⟩

/-! ## C10: Get is idempotent at a fixed time -/

/-- Deleting the same key twice equals deleting it once. -/
theorem ValueStore.deleteValue_deleteValue (vs : ValueStore) (id : String) :
    (vs.deleteValue id).deleteValue id = vs.deleteValue id := by
  simp only [ValueStore.deleteValue]
  congr 1
  funext k
  by_cases h : k = id <;> simp [h]

/-- C10: at a fixed observation time, running `Get id` a second time on
the state produced by the first returns the same string and leaves that
state fixed. -/
theorem C10_get_idempotent (vs : ValueStore) (id : String) (now : Nat) :
    ((vs.Get id now).2.Get id now).1 = (vs.Get id now).1 ∧
    ((vs.Get id now).2.Get id now).2 = (vs.Get id now).2 := by
  cases hv : vs.values id with
  | none =>
    have h1 : vs.Get id now = ("", vs.deleteValue id) := by
      simp [ValueStore.Get, ValueStore.getSnapshot, ValueStore.getFinish, hv]
    have h2 : (vs.deleteValue id).values id = none := by
      simp [ValueStore.deleteValue]
    have h3 : (vs.deleteValue id).Get id now =
        ("", (vs.deleteValue id).deleteValue id) := by
      simp [ValueStore.Get, ValueStore.getSnapshot, ValueStore.getFinish, h2]
    rw [h1]
    simp [h3, ValueStore.deleteValue_deleteValue]
  | some e =>
    by_cases hexp : now - e.timestamp > vs.ttl
    · have h1 : vs.Get id now = ("", vs.deleteValue id) := by
        simp [ValueStore.Get, ValueStore.getSnapshot, ValueStore.getFinish, hv, hexp]
      have h2 : (vs.deleteValue id).values id = none := by
        simp [ValueStore.deleteValue]
      have h3 : (vs.deleteValue id).Get id now =
          ("", (vs.deleteValue id).deleteValue id) := by
        simp [ValueStore.Get, ValueStore.getSnapshot, ValueStore.getFinish, h2]
      rw [h1]
      simp [h3, ValueStore.deleteValue_deleteValue]
    · have h1 : vs.Get id now = (e.value, vs) := by
        simp [ValueStore.Get, ValueStore.getSnapshot, ValueStore.getFinish, hv, hexp]
      rw [h1]
      simp [ValueStore.Get, ValueStore.getSnapshot, ValueStore.getFinish, hv, hexp, h1]

/-- C10 witness: the second Get repeats the first on a concrete store. -/
theorem C10_get_idempotent_witness :
    let s := (NewValueStore 5).Set "a" "v" 0
    ((s.Get "a" 9).2.Get "a" 9).1 = (s.Get "a" 9).1 ∧
    ((s.Get "a" 9).2.Get "a" 9).2 = (s.Get "a" 9).2 :=
  C10_get_idempotent ((NewValueStore 5).Set "a" "v" 0) "a" 9
